import Mathlib

/-!
Shallow embedding of the Zapgen backend (FastAPI + MongoDB CRUD service):
`schemas.py` (Pydantic models) and `main.py` (HTTP handlers).

Documents stored in MongoDB are modelled as association lists from string
keys to a small value type `Val`; collections are lists of stored entities
paired with their store-assigned identifier (the ObjectId, modelled as a
natural number).  The database adapter (`database.py`: `create_document`,
`get_documents`, the `db` handle) is not part of the provided sources;
where its behaviour is needed it is modelled from the specification
(section 4.1 of the design document), and those definitions say so in
their doc comments.
-/

namespace Zapgen

/-- JSON-like values as stored in MongoDB documents: strings, ObjectIds
(modelled as `Nat`), null, lists of strings (the only list-valued schema
fields), and nested key-value objects (for `Flow.definition`). -/
inductive Val where
  | vStr (s : String)
  | vOid (n : Nat)
  | vNone
  | vList (xs : List String)
  | vDict (kvs : List (String × Val))
deriving Repr

/-- A MongoDB document: an association list of string keys to values.
Documents built by this development always have pairwise-distinct keys,
mirroring Python dicts. -/
abbrev Doc := List (String × Val)

/-- Python `d.get(k)`: the value at the first occurrence of key `k`. -/
def dictGet (d : Doc) (k : String) : Option Val :=
  (d.find? (fun p => p.1 == k)).map (fun p => p.2)

/-- Python `d[k] = v`: replace the value at key `k`, or append the pair if
the key is absent. -/
def dictSet (d : Doc) (k : String) (v : Val) : Doc :=
  if d.any (fun p => p.1 == k) then
    d.map (fun p => if p.1 == k then (k, v) else p)
  else
    d ++ [(k, v)]

/-- Python `d.pop(k, None)`: remove the key `k`. -/
def dictPop (d : Doc) (k : String) : Doc :=
  d.filter (fun p => !(p.1 == k))

/-- String form of a store-assigned ObjectId, as `str(ObjectId)` yields. -/
def oidStr (n : Nat) : String := toString n

/-- Python `str(x)` for the optional value read by `d.get("_id")`; only the
ObjectId case is reached by the handlers, since every stored document
carries an `_id`. -/
def pyStr : Option Val → String
  | some (.vStr s) => s
  | some (.vOid n) => oidStr n
  | some .vNone => "None"
  | some (.vList _) => ""
  | some (.vDict _) => ""
  | none => "None"

/-! ## Schema layer (`schemas.py`)

Each Pydantic model becomes a structure holding the validated fields.
For each model a raw-input structure represents the parsed JSON body in
which optional fields may be absent (`none`), and a validator applies the
declared defaults, mirroring Pydantic validation of the request body. -/

/-- `schemas.Contact`. -/
structure Contact where
  name : String
  phone : String
  tags : List String
  notes : Option String
deriving Repr, DecidableEq

/-- `schemas.Message`; `direction` is constrained by the Pydantic pattern
`(inbound|outbound)` anchored at both ends. -/
structure Message where
  contact_id : String
  direction : String
  text : String
  campaign_id : Option String
deriving Repr, DecidableEq

/-- `schemas.Campaign`. -/
structure Campaign where
  name : String
  message : String
  status : String
  segment_tags : List String
deriving Repr, DecidableEq

/-- `schemas.Template`. -/
structure Template where
  name : String
  language : String
  body : String
  «variables» : List String
deriving Repr, DecidableEq

/-- `schemas.Flow`; `definition` is an arbitrary JSON object. -/
structure Flow where
  name : String
  definition : List (String × Val)
  description : Option String
deriving Repr

/-- `schemas.ChatSession` (the declared schema; the stored document is
`ChatSessionDoc` below). -/
structure ChatSession where
  contact_id : String
  last_message : Option String
deriving Repr, DecidableEq

/-- Raw JSON body for `POST /api/contacts`: optional fields may be absent. -/
structure ContactIn where
  name : String
  phone : String
  tags : Option (List String)
  notes : Option String

/-- Pydantic validation of a `Contact` body: `tags` defaults to the empty
list (`default_factory=list`), `notes` defaults to `None`. -/
def validateContact (p : ContactIn) : Contact :=
  { name := p.name, phone := p.phone, tags := p.tags.getD [], notes := p.notes }

/-- Raw JSON body for `POST /api/messages`: all four fields as sent;
`direction` not yet validated. -/
structure RawMessage where
  contact_id : String
  direction : String
  text : String
  campaign_id : Option String

/-- Pydantic validation of a `Message` body: the anchored pattern
`(inbound|outbound)` on `direction` accepts exactly those two strings;
any other value is a validation error (`none`). -/
def validateMessage (p : RawMessage) : Option Message :=
  if p.direction == "inbound" || p.direction == "outbound" then
    some { contact_id := p.contact_id, direction := p.direction,
           text := p.text, campaign_id := p.campaign_id }
  else
    none

/-- Raw JSON body for `POST /api/campaigns`. -/
structure CampaignIn where
  name : String
  message : String
  status : Option String
  segment_tags : Option (List String)

/-- Pydantic validation of a `Campaign` body: `status` defaults to
`"draft"`, `segment_tags` defaults to the empty list. -/
def validateCampaign (p : CampaignIn) : Campaign :=
  { name := p.name, message := p.message, status := p.status.getD "draft",
    segment_tags := p.segment_tags.getD [] }

/-- Raw JSON body for `POST /api/templates`. -/
structure TemplateIn where
  name : String
  language : Option String
  body : String
  «variables» : Option (List String)

/-- Pydantic validation of a `Template` body: `language` defaults to
`"en"`, `variables` defaults to the empty list. -/
def validateTemplate (p : TemplateIn) : Template :=
  { name := p.name, language := p.language.getD "en", body := p.body,
    «variables» := p.«variables».getD [] }

/-! ## Document store (`database.py`, modelled from the spec)

The store keeps, per collection, the list of inserted entities paired
with their store-assigned ObjectId; `nextId` is the next fresh id.  The
`chatsession` collection holds the documents written by the `update_one`
upsert in `send_message`. -/

/-- The chat-session document written by the `$set` clause of the upsert
in `send_message` (`main.py`): all three fields are set to strings.  The
store-assigned `_id` plays no role in any handler and is omitted. -/
structure ChatSessionDoc where
  contact_id : String
  last_message : String
  updated_at : String
deriving Repr, DecidableEq

/-- The full store state across collections. -/
structure Store where
  contacts : List (Nat × Contact)
  templates : List (Nat × Template)
  campaigns : List (Nat × Campaign)
  flows : List (Nat × Flow)
  messages : List (Nat × Message)
  chatsessions : List ChatSessionDoc
  nextId : Nat

/-- Modelled from the spec: `database.py` is not among the provided
sources.  Section 4.1: `insert(collection, document) -> identifier`
appends the document with a store-generated identifier and returns that
identifier as text; section 8 notes the write can also fail silently
(store unavailable), which the `avail` flag captures — on failure nothing
is inserted and no identifier is produced.  Specialised to the `message`
collection, the only one the handlers insert into in the claims below. -/
def create_document_message (st : Store) (avail : Bool) (m : Message) :
    Store × Option String :=
  if avail then
    ({ st with messages := st.messages ++ [(st.nextId, m)], nextId := st.nextId + 1 },
     some (oidStr st.nextId))
  else
    (st, none)

/-- Modelled from the spec: `database.py` is not among the provided
sources.  Section 4.1: `find(collectionName, filter, limit)` returns up
to `limit` documents matching the filter.  A filter pair matches a
document when the field equals the value exactly, or, for a list-valued
field, when the list contains the value (the tag filter of
`GET /api/contacts` "returns only contacts whose tags include" the tag).
All filters built by the handlers have string values. -/
def docMatches (q : List (String × String)) (d : Doc) : Bool :=
  q.all (fun kv =>
    match dictGet d kv.1 with
    | some (.vStr s) => s == kv.2
    | some (.vList xs) => xs.contains kv.2
    | _ => false)

/-- Modelled from the spec: `get_documents(collection, filter, limit)`
per section 4.1 — up to `limit` matching documents, in store order. -/
def get_documents (docs : List Doc) (q : List (String × String)) (limit : Nat) :
    List Doc :=
  (docs.filter (docMatches q)).take limit

/-- Wrap a value that may be Python `None`. -/
def optVal (o : Option String) : Val :=
  match o with
  | some s => .vStr s
  | none => .vNone

/-- The `contact` collection document for a stored `Contact`: its schema
fields plus the store-assigned `_id`. -/
def contactToDoc (p : Nat × Contact) : Doc :=
  [("name", .vStr p.2.name), ("phone", .vStr p.2.phone),
   ("tags", .vList p.2.tags), ("notes", optVal p.2.notes),
   ("_id", .vOid p.1)]

/-- The `template` collection document for a stored `Template`. -/
def templateToDoc (p : Nat × Template) : Doc :=
  [("name", .vStr p.2.name), ("language", .vStr p.2.language),
   ("body", .vStr p.2.body), ("variables", .vList p.2.«variables»),
   ("_id", .vOid p.1)]

/-- The `campaign` collection document for a stored `Campaign`. -/
def campaignToDoc (p : Nat × Campaign) : Doc :=
  [("name", .vStr p.2.name), ("message", .vStr p.2.message),
   ("status", .vStr p.2.status), ("segment_tags", .vList p.2.segment_tags),
   ("_id", .vOid p.1)]

/-- The `flow` collection document for a stored `Flow`. -/
def flowToDoc (p : Nat × Flow) : Doc :=
  [("name", .vStr p.2.name), ("definition", .vDict p.2.definition),
   ("description", optVal p.2.description),
   ("_id", .vOid p.1)]

/-- The `message` collection document for a stored `Message`. -/
def messageToDoc (p : Nat × Message) : Doc :=
  [("contact_id", .vStr p.2.contact_id), ("direction", .vStr p.2.direction),
   ("text", .vStr p.2.text), ("campaign_id", optVal p.2.campaign_id),
   ("_id", .vOid p.1)]

/-! ## API layer (`main.py`) -/

/-- The response-reshaping loop body shared by every list handler:
`d["id"] = str(d.get("_id")); d.pop("_id", None)`. -/
def reshapeDoc (d : Doc) : Doc :=
  dictPop (dictSet d "id" (.vStr (pyStr (dictGet d "_id")))) "_id"

/-- `list_contacts` (`GET /api/contacts`): `q = {}` unless `tag` is
truthy (present and non-empty), in which case `q = make_dict tags tag`;
then `get_documents("contact", q, limit=100)` and the reshape loop. -/
def list_contacts (st : Store) (tag : Option String) : List Doc :=
  let q : List (String × String) :=
    match tag with
    | some t => if t == "" then [] else [("tags", t)]
    | none => []
  (get_documents (st.contacts.map contactToDoc) q 100).map reshapeDoc

/-- `list_templates` (`GET /api/templates`): no filter, limit 100. -/
def list_templates (st : Store) : List Doc :=
  (get_documents (st.templates.map templateToDoc) [] 100).map reshapeDoc

/-- `list_campaigns` (`GET /api/campaigns`): no filter, limit 100. -/
def list_campaigns (st : Store) : List Doc :=
  (get_documents (st.campaigns.map campaignToDoc) [] 100).map reshapeDoc

/-- `list_flows` (`GET /api/flows`): no filter, limit 100. -/
def list_flows (st : Store) : List Doc :=
  (get_documents (st.flows.map flowToDoc) [] 100).map reshapeDoc

/-- `list_messages` (`GET /api/messages`): `q` gets a `contact_id` entry
only when the parameter is truthy; limit 200. -/
def list_messages (st : Store) (contact_id : Option String) : List Doc :=
  let q : List (String × String) :=
    match contact_id with
    | some c => if c == "" then [] else [("contact_id", c)]
    | none => []
  (get_documents (st.messages.map messageToDoc) q 200).map reshapeDoc

/-- The `update_one({contact_id: c}, {$set: ...}, upsert=True)` call of
`send_message`: replace the first chat-session document whose
`contact_id` equals `c` with the `$set` document, or append it when no
document matches. -/
def upsertSession (c lm ua : String) : List ChatSessionDoc → List ChatSessionDoc
  | [] => [{ contact_id := c, last_message := lm, updated_at := ua }]
  | d :: ds =>
      if d.contact_id == c then
        { contact_id := c, last_message := lm, updated_at := ua } :: ds
      else
        d :: upsertSession c lm ua ds

/-- Outcome of `POST /api/messages` as seen by the client. -/
inductive PostResp where
  | ok (id : String)
  | validationError
  | serverError
deriving Repr, DecidableEq

/-- `POST /api/messages`: FastAPI first validates the body against the
`Message` schema (a failure is a client validation error and the handler
never runs); on success `send_message` stores the message via
`create_document` and upserts the chat session with `last_message` and
`updated_at` both set to `msg.text`.  When the store is unavailable the
request fails with a server error and no state changes. -/
def postMessage (st : Store) (avail : Bool) (p : RawMessage) : Store × PostResp :=
  match validateMessage p with
  | none => (st, .validationError)
  | some msg =>
      match create_document_message st avail msg with
      | (st1, some newId) =>
          ({ st1 with chatsessions :=
              upsertSession msg.contact_id msg.text msg.text st1.chatsessions },
           .ok newId)
      | (_, none) => (st, .serverError)

/-- An entry of the `history` field of an AI request: a JSON object with
string values (`Dict[str, str]`), of which the handler reads the keys
`role` and `content`. -/
abbrev HistEntry := List (String × String)

/-- Python `m.get(k)` on a string-valued dict. -/
def sget (m : HistEntry) (k : String) : Option String :=
  (m.find? (fun p => p.1 == k)).map (fun p => p.2)

/-- Request body of `POST /api/ai/suggest-reply` (`AIRequest`). -/
structure AIRequest where
  history : List HistEntry
  instruction : Option String

/-- Substring test, Python `needle in hay` on strings: `hayStarts` checks
a prefix at the head, `subStr` slides over the haystack. -/
def hayStarts : List Char → List Char → Bool
  | [], _ => true
  | _ :: _, [] => false
  | a :: as, b :: bs => a == b && hayStarts as bs

/-- Substring occurrence anywhere in the haystack. -/
def subStr (needle : List Char) : List Char → Bool
  | [] => hayStarts needle []
  | c :: cs => hayStarts needle (c :: cs) || subStr needle cs

/-- Python `needle in hay` for strings. -/
def strIn (needle hay : String) : Bool :=
  subStr needle.toList hay.toList

/-- `ai_suggest` (`POST /api/ai/suggest-reply`): walk the history in
reverse for the first entry whose `role` is `"user"` and take its
`content` (default empty); then pick the suggestion by keyword: first
`price`/`cost`, then `trial`/`demo`, else the generic default.  The
`instruction` field is never read. -/
def ai_suggest (req : AIRequest) : String :=
  let last_user : String :=
    match req.history.reverse.find? (fun m => sget m "role" == some "user") with
    | some m => (sget m "content").getD ""
    | none => ""
  if ["price", "cost"].any (fun word => strIn word last_user.toLower) then
    "Our pricing starts at $49/month. Would you like a quick demo?"
  else if ["trial", "demo"].any (fun word => strIn word last_user.toLower) then
    "Happy to set up a demo. What time works best for you?"
  else
    "Thanks for reaching out! Could you please share more details?"

/-- Request body of `POST /api/whatsapp/send` (`WhatsAppSend`). -/
structure WhatsAppSend where
  «to» : String
  text : String

/-- `whatsapp_send` (`POST /api/whatsapp/send`): build an outbound
`Message` from the payload (`campaign_id` defaults to `None`), store it
via `create_document` with the result discarded, call no external
provider, and answer with status `"queued"` unconditionally. -/
def whatsapp_send (st : Store) (avail : Bool) (p : WhatsAppSend) : Store × String :=
  let msg : Message :=
    { contact_id := p.«to», direction := "outbound", text := p.text, campaign_id := none }
  let r := create_document_message st avail msg
  (r.1, "queued")

/-! ## Reference function for the suggestion endpoint

Stated from the specification's words, to be compared with `ai_suggest`
above (which is translated from the code). -/

/-- The specification's reference suggestion function: take the content
of the last history entry with role `"user"` (empty string if none); if
its lowercased form contains `"price"` or `"cost"`, the pricing
suggestion; otherwise if it contains `"trial"` or `"demo"`, the demo
suggestion; otherwise the generic acknowledgment. -/
def aiSuggestSpec (history : List HistEntry) : String :=
  let lastUser : String :=
    match (history.filter (fun m => sget m "role" == some "user")).getLast? with
    | some m => (sget m "content").getD ""
    | none => ""
  if strIn "price" lastUser.toLower || strIn "cost" lastUser.toLower then
    "Our pricing starts at $49/month. Would you like a quick demo?"
  else if strIn "trial" lastUser.toLower || strIn "demo" lastUser.toLower then
    "Happy to set up a demo. What time works best for you?"
  else
    "Thanks for reaching out! Could you please share more details?"

/-! ## Concrete fixtures, used to instantiate the theorems below -/

/-- A store with one tagged contact, one stored message and no chat
sessions. -/
def stEx : Store :=
  { contacts := [(1, { name := "Ada", phone := "+100", tags := ["vip"], notes := none })],
    templates := [], campaigns := [], flows := [],
    messages := [(5, { contact_id := "c1", direction := "inbound", text := "hi",
                       campaign_id := none })],
    chatsessions := [], nextId := 6 }

/-- The document `GET /api/contacts?tag=vip` returns for the contact of
`stEx`. -/
def contactDocEx : Doc := reshapeDoc (contactToDoc (1,
  { name := "Ada", phone := "+100", tags := ["vip"], notes := none }))

/-! ## Helper lemmas -/

/-- After the upsert, the first chat-session document keyed by `c` is
exactly the `$set` document. -/
theorem find?_upsertSession (c lm ua : String) (l : List ChatSessionDoc) :
    (upsertSession c lm ua l).find? (fun s => s.contact_id == c)
      = some { contact_id := c, last_message := lm, updated_at := ua } := by
  induction l with
  | nil => simp [upsertSession]
  | cons d ds ih =>
      by_cases hd : d.contact_id == c
      · simp [upsertSession, hd]
      · simp only [upsertSession, hd, if_neg, Bool.false_eq_true, not_false_iff,
          reduceIte]
        rw [List.find?_cons_of_neg _ (by simp_all), ih]

/-- Looking up the key just set. -/
theorem dictGet_dictSet_self (d : Doc) (k : String) (v : Val) :
    dictGet (dictSet d k v) k = some v := by
  unfold dictSet
  by_cases h : d.any (fun p => p.1 == k)
  · rw [if_pos h]
    induction d with
    | nil => simp at h
    | cons p ps ih =>
        by_cases hp : p.1 == k
        · rw [List.map_cons, if_pos hp]
          unfold dictGet
          rw [List.find?_cons_of_pos _ (by simp)]
          rfl
        · simp only [List.any_cons, hp, Bool.false_or] at h
          simp only [List.map_cons, hp, Bool.false_eq_true, reduceIte]
          unfold dictGet at ih ⊢
          rw [List.find?_cons_of_neg _ (by simp_all), ih h]
  · rw [if_neg h]
    unfold dictGet
    rw [List.find?_append]
    have hnone : d.find? (fun p => p.1 == k) = none := by
      rw [List.find?_eq_none]
      intro x hx
      simp only [List.any_eq_true, not_exists, not_and] at h
      simpa using h x hx
    simp [hnone]

/-- The popped key is gone. -/
theorem dictGet_dictPop_self (d : Doc) (k : String) :
    dictGet (dictPop d k) k = none := by
  unfold dictGet dictPop
  have : (d.filter (fun p => !(p.1 == k))).find? (fun p => p.1 == k) = none := by
    rw [List.find?_eq_none]
    intro x hx
    rcases List.mem_filter.mp hx with ⟨-, hkeep⟩
    simp only [Bool.not_eq_true'] at hkeep
    simp [hkeep]
  simp [this]

/-- Popping one key does not change lookups of a different key. -/
theorem dictGet_dictPop_ne (d : Doc) (k k' : String) (hne : k ≠ k') :
    dictGet (dictPop d k') k = dictGet d k := by
  unfold dictGet dictPop
  induction d with
  | nil => rfl
  | cons p ps ih =>
      by_cases hp : p.1 == k'
      · have hpk : (p.1 == k) = false := by
          have : p.1 = k' := by simpa using hp
          simp [this, beq_eq_false_iff_ne, Ne.symm hne]
        simp only [List.filter_cons, hp, Bool.not_true, Bool.false_eq_true, reduceIte]
        rw [ih, List.find?_cons_of_neg _ (by simp [hpk])]
      · simp only [List.filter_cons, hp, Bool.not_false, Bool.false_eq_true, reduceIte]
        by_cases hpk : p.1 == k
        · simp [List.find?_cons_of_pos, hpk]
        · rw [List.find?_cons_of_neg _ (by simp_all),
            List.find?_cons_of_neg _ (by simp_all), ih]

/-- Reshaping a stored document: the `id` field carries the string form
of the original `_id`, and `_id` itself is gone. -/
theorem reshapeDoc_spec (d : Doc) (n : Nat) (h : dictGet d "_id" = some (.vOid n)) :
    dictGet (reshapeDoc d) "id" = some (.vStr (oidStr n))
      ∧ dictGet (reshapeDoc d) "_id" = none := by
  unfold reshapeDoc
  constructor
  · rw [dictGet_dictPop_ne _ _ _ (by decide), dictGet_dictSet_self, h]
    rfl
  · exact dictGet_dictPop_self _ _

/-- Every document produced by a list handler is the reshape of a stored
document that matched the filter. -/
theorem mem_list_handler {β : Type} (f : β → Doc) (l : List β)
    (q : List (String × String)) (lim : Nat) (d : Doc)
    (hd : d ∈ (get_documents (l.map f) q lim).map reshapeDoc) :
    ∃ b ∈ l, docMatches q (f b) = true ∧ d = reshapeDoc (f b) := by
  rcases List.mem_map.mp hd with ⟨d0, hd0, rfl⟩
  unfold get_documents at hd0
  have hfil := List.mem_of_mem_take hd0
  rcases List.mem_filter.mp hfil with ⟨hmem, hq⟩
  rcases List.mem_map.mp hmem with ⟨b, hb, rfl⟩
  exact ⟨b, hb, hq, rfl⟩

/-- A list handler whose stored documents all carry an ObjectId `_id`
yields only documents with a reshaped `id` and no `_id`. -/
theorem endpoint_doc_spec {β : Type} (f : β → Doc) (idOf : β → Nat)
    (hf : ∀ b, dictGet (f b) "_id" = some (.vOid (idOf b)))
    (l : List β) (q : List (String × String)) (lim : Nat) (d : Doc)
    (hd : d ∈ (get_documents (l.map f) q lim).map reshapeDoc) :
    ∃ b ∈ l, dictGet d "id" = some (.vStr (oidStr (idOf b)))
      ∧ dictGet d "_id" = none := by
  rcases mem_list_handler f l q lim d hd with ⟨b, hb, -, rfl⟩
  rcases reshapeDoc_spec (f b) (idOf b) (hf b) with ⟨h1, h2⟩
  exact ⟨b, hb, h1, h2⟩

/-! ## The claims -/

/-- C1: every successful `POST /api/messages` with `contact_id` `c` and
`text` `t` leaves the chat-session document keyed by `c` with
`last_message = t` and `updated_at = t` (the message text, not a
timestamp). -/
theorem send_message_upserts_chat_session (st : Store) (avail : Bool)
    (p : RawMessage) (st' : Store) (i : String)
    (h : postMessage st avail p = (st', .ok i)) :
    st'.chatsessions.find? (fun s => s.contact_id == p.contact_id)
      = some { contact_id := p.contact_id, last_message := p.text,
               updated_at := p.text } := by
  unfold postMessage at h
  cases hv : validateMessage p with
  | none => rw [hv] at h; simp at h
  | some msg =>
      rw [hv] at h
      have hcp : msg.contact_id = p.contact_id ∧ msg.text = p.text := by
        unfold validateMessage at hv
        split at hv
        · cases hv; exact ⟨rfl, rfl⟩
        · cases hv
      cases avail with
      | false => simp [create_document_message] at h
      | true =>
          simp only [create_document_message, reduceIte] at h
          injection h with hA hB
          subst hA
          simp only
          rw [hcp.1, hcp.2, find?_upsertSession]

/-- C2: the suggestion returned by `POST /api/ai/suggest-reply` equals
the specification's reference function of the history: last user
entry's content, price/cost keywords first, then trial/demo, else the
generic acknowledgment, case-insensitively. -/
theorem ai_suggest_eq_reference (req : AIRequest) :
    ai_suggest req = aiSuggestSpec req.history := by
  unfold ai_suggest aiSuggestSpec
  rw [List.filter_getLast?]
  simp only [List.any_cons, List.any_nil, Bool.or_false]

/-- C3: `POST /api/whatsapp/send` answers `"queued"` unconditionally;
when the store accepts the write it records the outbound message built
from the payload, and when the write fails the state is unchanged (and
the answer is still `"queued"`); no external provider is modelled or
called. -/
theorem whatsapp_send_behaviour (st : Store) (avail : Bool) (p : WhatsAppSend) :
    (whatsapp_send st avail p).2 = "queued"
      ∧ (avail = true →
          (whatsapp_send st avail p).1.messages
            = st.messages ++ [(st.nextId,
                { contact_id := p.«to», direction := "outbound", text := p.text,
                  campaign_id := none })])
      ∧ (avail = false → (whatsapp_send st avail p).1 = st) := by
  refine ⟨rfl, ?_, ?_⟩
  · intro ha; subst ha; simp [whatsapp_send, create_document_message]
  · intro ha; subst ha; simp [whatsapp_send, create_document_message]

/-- C4: a `Message` payload whose `direction` is neither `"inbound"` nor
`"outbound"` is rejected by validation: the response is a client
validation error and the store is untouched. -/
theorem invalid_direction_rejected (st : Store) (avail : Bool) (p : RawMessage)
    (h1 : p.direction ≠ "inbound") (h2 : p.direction ≠ "outbound") :
    postMessage st avail p = (st, .validationError) := by
  have hv : validateMessage p = none := by
    unfold validateMessage
    rw [if_neg]
    simp [h1, h2]
  unfold postMessage
  rw [hv]

/-- C5: with a non-empty `tag` parameter, every document returned by
`GET /api/contacts` comes from a stored contact whose tags contain the
tag, and contacts without the tag are excluded. -/
theorem list_contacts_tag_filter (st : Store) (q : String) (hq : q ≠ "") :
    (∀ d ∈ list_contacts st (some q),
        ∃ p ∈ st.contacts, q ∈ p.2.tags ∧ d = reshapeDoc (contactToDoc p))
      ∧ (∀ p ∈ st.contacts, q ∉ p.2.tags →
          reshapeDoc (contactToDoc p) ∉ list_contacts st (some q)) := by
  have hqf : (q == "") = false := beq_eq_false_iff_ne.mpr hq
  have part1 : ∀ d ∈ list_contacts st (some q),
      ∃ p ∈ st.contacts, q ∈ p.2.tags ∧ d = reshapeDoc (contactToDoc p) := by
    intro d hd
    simp only [list_contacts, hqf, Bool.false_eq_true, reduceIte] at hd
    rcases mem_list_handler contactToDoc st.contacts _ 100 d hd with ⟨p, hp, hm, rfl⟩
    refine ⟨p, hp, ?_, rfl⟩
    have hcont : p.2.tags.contains q = true := by
      simpa [docMatches, dictGet, contactToDoc, List.find?] using hm
    simpa using hcont
  refine ⟨part1, ?_⟩
  intro p hp hnot hmem
  rcases part1 _ hmem with ⟨p', hp', hq', heq⟩
  have h1 : dictGet (reshapeDoc (contactToDoc p)) "tags" = some (.vList p.2.tags) := rfl
  have h2 : dictGet (reshapeDoc (contactToDoc p')) "tags" = some (.vList p'.2.tags) := rfl
  rw [heq, h2] at h1
  have htags : p'.2.tags = p.2.tags := by
    injection h1 with h1v
    injection h1v
  exact hnot (htags ▸ hq')

/-- C6: every list endpoint returns at most its fixed cap of documents:
100 for contacts, templates, campaigns and flows, 200 for messages. -/
theorem list_endpoints_capped (st : Store) (tag cid : Option String) :
    (list_contacts st tag).length ≤ 100
      ∧ (list_templates st).length ≤ 100
      ∧ (list_campaigns st).length ≤ 100
      ∧ (list_flows st).length ≤ 100
      ∧ (list_messages st cid).length ≤ 200 := by
  refine ⟨?_, ?_, ?_, ?_, ?_⟩ <;>
    · simp only [list_contacts, list_templates, list_campaigns, list_flows,
        list_messages, get_documents, List.length_map]
      exact List.length_take_le _ _

/-- C7: the suggestion depends only on the history: two requests with
identical histories, whatever their `instruction` fields, get the same
suggestion (the handler is a pure function with no store access). -/
theorem ai_suggest_pure_in_history (r1 r2 : AIRequest)
    (h : r1.history = r2.history) :
    ai_suggest r1 = ai_suggest r2 := by
  unfold ai_suggest
  rw [h]

/-- C8: absent optional fields get the documented defaults:
`Contact.tags = []`, `Campaign.status = "draft"`,
`Campaign.segment_tags = []`, `Template.language = "en"`,
`Template.variables = []`. -/
theorem create_defaults_applied (n ph cn cm tn tb : String) :
    validateContact { name := n, phone := ph, tags := none, notes := none }
        = { name := n, phone := ph, tags := [], notes := none }
      ∧ validateCampaign ⟨cn, cm, none, none⟩
        = { name := cn, message := cm, status := "draft", segment_tags := [] }
      ∧ validateTemplate ⟨tn, none, tb, none⟩
        = { name := tn, language := "en", body := tb, «variables» := [] } :=
  ⟨rfl, rfl, rfl⟩

/-- C9: every document returned by a list endpoint carries an `id` key
holding the string form of its stored ObjectId and no `_id` key. -/
theorem list_endpoints_reshape_id (st : Store) (tag cid : Option String) :
    (∀ d ∈ list_contacts st tag, ∃ p ∈ st.contacts,
        dictGet d "id" = some (.vStr (oidStr p.1)) ∧ dictGet d "_id" = none)
      ∧ (∀ d ∈ list_templates st, ∃ p ∈ st.templates,
          dictGet d "id" = some (.vStr (oidStr p.1)) ∧ dictGet d "_id" = none)
      ∧ (∀ d ∈ list_campaigns st, ∃ p ∈ st.campaigns,
          dictGet d "id" = some (.vStr (oidStr p.1)) ∧ dictGet d "_id" = none)
      ∧ (∀ d ∈ list_flows st, ∃ p ∈ st.flows,
          dictGet d "id" = some (.vStr (oidStr p.1)) ∧ dictGet d "_id" = none)
      ∧ (∀ d ∈ list_messages st cid, ∃ p ∈ st.messages,
          dictGet d "id" = some (.vStr (oidStr p.1)) ∧ dictGet d "_id" = none) := by
  refine ⟨?_, ?_, ?_, ?_, ?_⟩ <;> intro d hd
  · simp only [list_contacts] at hd
    exact endpoint_doc_spec contactToDoc Prod.fst (fun b => rfl) st.contacts _ 100 d hd
  · simp only [list_templates] at hd
    exact endpoint_doc_spec templateToDoc Prod.fst (fun b => rfl) st.templates _ 100 d hd
  · simp only [list_campaigns] at hd
    exact endpoint_doc_spec campaignToDoc Prod.fst (fun b => rfl) st.campaigns _ 100 d hd
  · simp only [list_flows] at hd
    exact endpoint_doc_spec flowToDoc Prod.fst (fun b => rfl) st.flows _ 100 d hd
  · simp only [list_messages] at hd
    exact endpoint_doc_spec messageToDoc Prod.fst (fun b => rfl) st.messages _ 200 d hd

/-- C10: an empty-string `tag` (contacts) or `contact_id` (messages)
query parameter is dropped by the truthiness check, so the responses
coincide with the unfiltered ones. -/
theorem empty_filter_params_dropped (st : Store) :
    list_contacts st (some "") = list_contacts st none
      ∧ list_messages st (some "") = list_messages st none :=
  ⟨rfl, rfl⟩

/-! ## Witnesses: the hypothesis-bearing theorems instantiated at
concrete inputs -/

/-- C1 at a concrete request against `stEx`. -/
theorem send_message_upserts_chat_session_witness :
    ((postMessage stEx true ⟨"c1", "inbound", "hello", none⟩).1).chatsessions.find?
        (fun s => s.contact_id == "c1")
      = some ⟨"c1", "hello", "hello"⟩ :=
  send_message_upserts_chat_session stEx true
    ⟨"c1", "inbound", "hello", none⟩ _ "6" rfl

/-- C3 at a concrete request against `stEx` with the store available. -/
theorem whatsapp_send_behaviour_witness :
    (whatsapp_send stEx true ⟨"c9", "yo"⟩).2 = "queued"
      ∧ (whatsapp_send stEx true ⟨"c9", "yo"⟩).1.messages
          = stEx.messages ++ [(6, ⟨"c9", "outbound", "yo", none⟩)] :=
  ⟨(whatsapp_send_behaviour stEx true ⟨"c9", "yo"⟩).1,
   (whatsapp_send_behaviour stEx true ⟨"c9", "yo"⟩).2.1 rfl⟩

/-- C4 at a concrete invalid direction. -/
theorem invalid_direction_rejected_witness :
    postMessage stEx true ⟨"c1", "sideways", "x", none⟩ = (stEx, .validationError) :=
  invalid_direction_rejected stEx true
    ⟨"c1", "sideways", "x", none⟩ (by decide) (by decide)

/-- C5 at tag `"vip"` against `stEx`. -/
theorem list_contacts_tag_filter_witness :
    ∃ p ∈ stEx.contacts, "vip" ∈ p.2.tags
      ∧ contactDocEx = reshapeDoc (contactToDoc p) :=
  (list_contacts_tag_filter stEx "vip" (by decide)).1 contactDocEx
    (by rw [show list_contacts stEx (some "vip") = [contactDocEx] from rfl]
        exact List.mem_singleton.mpr rfl)

/-- C7 at two concrete requests differing only in `instruction`. -/
theorem ai_suggest_pure_in_history_witness :
    ai_suggest ⟨[[("role", "user"), ("content", "hello")]], some "be brief"⟩
      = ai_suggest ⟨[[("role", "user"), ("content", "hello")]], none⟩ :=
  ai_suggest_pure_in_history
    ⟨[[("role", "user"), ("content", "hello")]], some "be brief"⟩
    ⟨[[("role", "user"), ("content", "hello")]], none⟩ rfl

/-- C9 on the contact list of `stEx`. -/
theorem list_endpoints_reshape_id_witness :
    ∃ p ∈ stEx.contacts, dictGet contactDocEx "id" = some (.vStr (oidStr p.1))
      ∧ dictGet contactDocEx "_id" = none :=
  (list_endpoints_reshape_id stEx none none).1 contactDocEx
    (by rw [show list_contacts stEx none = [contactDocEx] from rfl]
        exact List.mem_singleton.mpr rfl)

end Zapgen
